import Mathlib

/-!
Verification of the claude-api-gateway proxy core (Go backend,
`backend/internal/proxy/proxy.go` and `backend/internal/api/handler/proxy_handler.go`)
against its natural-language specification.

The Go code is shallowly embedded: pure fragments become Lean functions,
the per-request control flow of the orchestrators becomes explicit folds over
candidate lists, and the network is an explicit oracle value (`Upstream`).
`json.Unmarshal` of an untyped payload is modelled by a `parse : String → Option Json`
parameter (the JSON library is external to the repository); everything the
repository itself does with the decoded `map[string]interface{}` value is
embedded faithfully on the `Json` type below.  Wall-clock fields of log
records (timestamps, latency) are I/O and are omitted from the `RequestLog`
model; every other field the code sets is kept.
-/

/-- Model of a decoded Go `interface{}` JSON value (`map[string]interface{}`,
`[]interface{}`, `string`, `float64`, `bool`, `nil`).  Token counts are
integers in every payload of interest, so numbers are modelled as `Int`. -/
inductive Json where
  | null : Json
  | bool (b : Bool) : Json
  | num (n : Int) : Json
  | str (s : String) : Json
  | arr (elems : List Json) : Json
  | obj (fields : List (String × Json)) : Json

/-- Key lookup in a decoded JSON object, mirroring Go `m[key]` on
`map[string]interface{}` (JSON object keys are unique after decoding). -/
def lookupField : List (String × Json) → String → Option Json
  | [], _ => none
  | (k, v) :: rest, key => if k = key then some v else lookupField rest key

/-- Go `event[key]` followed by the implicit "is this a map" check:
on a non-object value every key access they perform is guarded by a
type assertion that fails. -/
def Json.getField : Json → String → Option Json
  | .obj fs, key => lookupField fs key
  | _, _ => none

/-- Go type assertion `v.(string)`. -/
def Json.asString : Json → Option String
  | .str s => some s
  | _ => none

/-- Go type assertion `v.(float64)` (JSON numbers decode to float64). -/
def Json.asNum : Json → Option Int
  | .num n => some n
  | _ => none

/-- `event[key].(string)`. -/
def Json.strField (j : Json) (key : String) : Option String :=
  (j.getField key).bind Json.asString

/-- `event[key].(float64)`. -/
def Json.numField (j : Json) (key : String) : Option Int :=
  (j.getField key).bind Json.asNum

/-! ## lineScanner (`proxy.go`, `lineScanner.Scan` / `Text`)

The Go scanner reads the upstream body one byte at a time.  A read error
(including EOF and a dropped connection — the code cannot tell these apart)
ends the input, which we model as the end of the byte list.  `Scan` returns
`true` with the buffered line when it hits `'\n'` with a non-empty buffer or
the input ends with a non-empty buffer; it returns `false` — which every
caller treats as end of stream — when it hits `'\n'` with an empty buffer
(a blank line) or the input is exhausted.  `'\r'` bytes are dropped. -/

/-- One call of `lineScanner.Scan` with current buffer `acc`: `none` models
`Scan() == false`, `some (line, rest)` models `Scan() == true` with
`Text() == line` (a line is its byte list) and `rest` left unread. -/
def scanStep (acc : List Char) : List Char → Option (List Char × List Char)
  | [] => if acc.isEmpty then none else some (acc, [])
  | c :: rest =>
    if c = '\n' then
      if acc.isEmpty then none else some (acc, rest)
    else if c = '\r' then scanStep acc rest
    else scanStep (acc ++ [c]) rest

theorem scanStep_nil_rest (acc : List Char) {l : List Char} {r : List Char}
    (h : scanStep acc [] = some (l, r)) : r = [] := by
  unfold scanStep at h
  by_cases hacc : acc.isEmpty
  · simp [hacc] at h
  · simp [hacc] at h
    exact h.2

theorem scanStep_rest_lt (acc : List Char) (c : Char) (cs : List Char)
    {l : List Char} {r : List Char} (h : scanStep acc (c :: cs) = some (l, r)) :
    r.length < (c :: cs).length := by
  unfold scanStep at h
  by_cases hn : c = '\n'
  · by_cases hacc : acc.isEmpty
    · simp [hn, hacc] at h
    · simp [hn, hacc] at h
      obtain ⟨-, h2⟩ := h
      subst h2
      simp only [List.length_cons]
      omega
  · by_cases hr : c = '\r'
    · simp [hn, hr] at h
      cases cs with
      | nil =>
        have hrest := scanStep_nil_rest acc h
        subst hrest
        simp
      | cons d ds =>
        have hlt := scanStep_rest_lt acc d ds h
        simp only [List.length_cons] at hlt ⊢
        omega
    · simp [hn, hr] at h
      cases cs with
      | nil =>
        have hrest := scanStep_nil_rest (acc ++ [c]) h
        subst hrest
        simp
      | cons d ds =>
        have hlt := scanStep_rest_lt (acc ++ [c]) d ds h
        simp only [List.length_cons] at hlt ⊢
        omega

/-- Fuel-indexed iteration of `Scan`; each successful `Scan` consumes at
least one byte, so `input.length + 1` fuel always suffices (see
`scanLinesFuel_congr`). -/
def scanLinesFuel : Nat → List Char → List (List Char)
  | 0, _ => []
  | fuel + 1, input =>
    match scanStep [] input with
    | none => []
    | some (l, rest) => l :: scanLinesFuel fuel rest

/-- The sequence of lines a driver loop `for scanner.Scan() { ... }` sees:
repeated `Scan` calls until the first `false`.  Bytes after a blank line are
never delivered (the code stops scanning there). -/
def scanLines (input : List Char) : List (List Char) :=
  scanLinesFuel (input.length + 1) input

theorem scanLinesFuel_congr :
    ∀ (f : Nat), ∀ (f' : Nat) (input : List Char),
      input.length < f → input.length < f' →
      scanLinesFuel f input = scanLinesFuel f' input := by
  intro f
  induction f with
  | zero => intro f' input h _; omega
  | succ f ih =>
    intro f' input hf hf'
    cases f' with
    | zero => omega
    | succ f' =>
      simp only [scanLinesFuel]
      cases hstep : scanStep [] input with
      | none => rfl
      | some p =>
        obtain ⟨l, rest⟩ := p
        cases input with
        | nil => simp [scanStep] at hstep
        | cons c cs =>
          have hlt := scanStep_rest_lt [] c cs hstep
          show l :: scanLinesFuel f rest = l :: scanLinesFuel f' rest
          rw [ih f' rest (by omega) (by omega)]

/-! ## Go string helpers over line byte lists -/

/-- `strings.HasPrefix(s, pre)`. -/
def beginsWith : List Char → List Char → Bool
  | _, [] => true
  | [], _ :: _ => false
  | c :: cs, p :: ps => c == p && beginsWith cs ps

/-- The whitespace class of `strings.TrimSpace` (the code only ever meets
ASCII whitespace in SSE lines). -/
def isSpaceChar (c : Char) : Bool :=
  c == ' ' || c == '\t' || c == '\n' || c == '\r' || c == '\x0b' || c == '\x0c'

/-- `strings.TrimSpace`. -/
def trimSpace (s : List Char) : List Char :=
  ((s.dropWhile isSpaceChar).reverse.dropWhile isSpaceChar).reverse

/-! ## Data model (`internal/model`) -/

/-- `model.Channel`: the fields the proxy core reads.  Admin-only fields
(`Name`, `MaxRetries`, `RateLimit`, timestamps) are not consulted by
`proxy.go` and are omitted; `Timeout` is kept because the code reads it,
though wall-clock deadlines themselves are I/O. -/
structure Channel where
  id : Int
  baseURL : String
  apiKey : String
  provider : String
  isActive : Bool
  timeout : Int
deriving DecidableEq

/-- `model.ModelMappingWithChannel`: the fields the proxy loops read. -/
structure ModelMapping where
  channelID : Int
  upstreamModel : String
  displayModel : String
  isEnabled : Bool
deriving DecidableEq

/-- `model.Message` (Anthropic): role and plain-string content. -/
structure Message where
  role : String
  content : String
deriving DecidableEq

/-- `model.Usage`. -/
structure Usage where
  inputTokens : Int
  outputTokens : Int
deriving DecidableEq

/-- `model.Content`: one Anthropic response content block. -/
structure ContentBlock where
  type : String
  text : String
deriving DecidableEq

/-- `model.AnthropicMessageRequest`: the fields `convertOpenAIToAnthropic`
produces.  `*float64` passthrough knobs are modelled as `Option Int`
(their values are copied verbatim and never inspected). -/
structure AnthropicMessageRequest where
  model : String
  maxTokens : Int
  messages : List Message
  temperature : Option Int
  topP : Option Int
  system : String

/-- `model.AnthropicMessageResponse`: the fields the converters and loggers read. -/
structure AnthropicMessageResponse where
  id : String
  content : List ContentBlock
  stopReason : String
  usage : Usage
deriving DecidableEq

/-- `model.OpenAIMessage`: `Content` is `any` in Go (string or block array),
modelled as `Json`. -/
structure OpenAIMessage where
  role : String
  content : Json

/-- `model.OpenAIChatRequest`: the fields `convertOpenAIToAnthropic` reads. -/
structure OpenAIChatRequest where
  model : String
  messages : List OpenAIMessage
  maxTokens : Option Int
  temperature : Option Int
  topP : Option Int
  stream : Bool

/-- `model.OpenAIUsage`. -/
structure OpenAIUsage where
  promptTokens : Int
  completionTokens : Int
  totalTokens : Int

/-- `model.OpenAIChoice` (the `Created` timestamp is I/O and omitted from
the enclosing response model). -/
structure OpenAIChoice where
  index : Int
  messageRole : String
  messageContent : String
  finishReason : String

/-- `model.OpenAIChatResponse` minus the `Created` wall-clock field. -/
structure OpenAIChatResponse where
  id : String
  object : String
  model : String
  choices : List OpenAIChoice
  usage : OpenAIUsage

/-- `model.RequestLog` minus the wall-clock fields (`RequestTime`,
`ResponseTime`, `LatencyMs`); every field `proxy.go` assigns is kept.
Fields the code leaves unset default to Go zero values. -/
structure RequestLog where
  channelID : Int
  requestID : String
  modelName : String
  upstreamModel : String
  inputTokens : Int
  outputTokens : Int
  totalTokens : Int
  status : String
  errorCode : String
  errorMessage : String
  ipAddress : String
deriving DecidableEq

/-! ## Format Converter (`convertOpenAIToAnthropic`, `convertAnthropicToOpenAI`) -/

/-- The content-extraction `switch` in `convertOpenAIToAnthropic`: a plain
string passes through; an array keeps only the `text` string field of each
object block, concatenated; any other shape contributes the empty string. -/
def extractContent : Json → String
  | .str s => s
  | .arr blocks =>
    blocks.foldl
      (fun acc b =>
        match b.strField "text" with
        | some t => acc ++ t
        | none => acc)
      ""
  | _ => ""

/-- One iteration of the message loop of `convertOpenAIToAnthropic`,
acting on the state `(messages slice, systemPrompt variable)`: a `system`
message *assigns* `systemPrompt` (it does not append) and is dropped from
the list; a non-`assistant` role is coerced to `user`. -/
def convertMessageStep (st : List Message × String) (msg : OpenAIMessage) :
    List Message × String :=
  let content := extractContent msg.content
  if msg.role = "system" then (st.1, content)
  else
    let role := if msg.role = "assistant" then "assistant" else "user"
    (st.1 ++ [Message.mk role content], st.2)

/-- `convertOpenAIToAnthropic`. -/
def convertOpenAIToAnthropic (req : OpenAIChatRequest) (upstreamModel : String) :
    AnthropicMessageRequest :=
  let (messages, systemPrompt) := req.messages.foldl convertMessageStep ([], "")
  let maxTokens := match req.maxTokens with
    | some n => n
    | none => 4096
  { model := upstreamModel
    maxTokens := maxTokens
    messages := messages
    temperature := req.temperature
    topP := req.topP
    system := systemPrompt }

/-- `convertAnthropicToOpenAI` (the `Created := time.Now().Unix()` field is
wall-clock I/O and omitted from the response model). -/
def convertAnthropicToOpenAI (resp : AnthropicMessageResponse)
    (displayModel : String) : OpenAIChatResponse :=
  let content := resp.content.foldl
    (fun acc c => if c.type = "text" then acc ++ c.text else acc) ""
  let finishReason := if resp.stopReason = "max_tokens" then "length" else "stop"
  { id := resp.id
    object := "chat.completion"
    model := displayModel
    choices := [{ index := 0
                  messageRole := "assistant"
                  messageContent := content
                  finishReason := finishReason }]
    usage := { promptTokens := resp.usage.inputTokens
               completionTokens := resp.usage.outputTokens
               totalTokens := resp.usage.inputTokens + resp.usage.outputTokens } }

/-! ## Candidate resolution and outbound request construction -/

/-- The candidate an attempt runs against: the `channelID/baseURL/apiKeyToUse/
provider` block at the top of each `proxy*ToChannel` function.  A `none`
channel is the fallback: channel id 0, the default Anthropic endpoint, and
the credential the inbound caller supplied. -/
structure Candidate where
  channelID : Int
  baseURL : String
  apiKey : String
  provider : String
  upstreamModel : String
deriving DecidableEq

/-- The shared `if channel != nil` prologue of the `proxy*ToChannel`
functions (`provider = "anthropic"` in the nil branch is taken from
`proxyChatToChannel` / `proxyChatStreamToChannel`; the Anthropic-native
path never reads it). -/
def candidateOf (channel : Option Channel) (callerKey upstreamModel : String) :
    Candidate :=
  match channel with
  | some ch =>
    { channelID := ch.id, baseURL := ch.baseURL, apiKey := ch.apiKey,
      provider := ch.provider, upstreamModel := upstreamModel }
  | none =>
    { channelID := 0, baseURL := "https://api.anthropic.com",
      apiKey := callerKey, provider := "anthropic",
      upstreamModel := upstreamModel }

/-- An outbound HTTP request as the code constructs it: method, URL and
headers. -/
structure HttpRequestModel where
  method : String
  url : String
  headers : List (String × String)

/-- Request built by `proxyToChannel` / `proxyStreamToChannel` (the
Anthropic-native entrypoint): always `POST {base}/v1/messages` with
`x-api-key` and `anthropic-version`, regardless of the channel's provider. -/
def buildMessagesRequest (cand : Candidate) : HttpRequestModel :=
  { method := "POST"
    url := cand.baseURL ++ "/v1/messages"
    headers := [("Content-Type", "application/json"),
                ("x-api-key", cand.apiKey),
                ("anthropic-version", "2023-06-01")] }

/-- Request built by `proxyChatToChannel` / `proxyChatStreamToChannel`
(the OpenAI-compatible entrypoint): dispatch on the provider flavor. -/
def buildChatRequest (cand : Candidate) : HttpRequestModel :=
  if cand.provider = "anthropic" then
    { method := "POST"
      url := cand.baseURL ++ "/v1/messages"
      headers := [("Content-Type", "application/json"),
                  ("x-api-key", cand.apiKey),
                  ("anthropic-version", "2023-06-01")] }
  else
    { method := "POST"
      url := cand.baseURL ++ "/v1/chat/completions"
      headers := [("Content-Type", "application/json"),
                  ("Authorization", "Bearer " ++ cand.apiKey)] }

/-! ## Log record construction (`logSuccess`, `logError`, `logChatError`,
and the in-loop stream logs) -/

/-- `logError` / `logChatError`: status `"error"`, error code prefixed with
the upstream HTTP status when a response was received
(`"502:http_request"`-style), token fields left at zero. -/
def logErrorRecord (channelID : Int) (requestID modelName upstreamModel : String)
    (httpStatus : Option Nat) (errorCode errorMessage ipAddress : String) :
    RequestLog :=
  { channelID := channelID
    requestID := requestID
    modelName := modelName
    upstreamModel := upstreamModel
    inputTokens := 0
    outputTokens := 0
    totalTokens := 0
    status := "error"
    errorCode := match httpStatus with
      | some st => toString st ++ ":" ++ errorCode
      | none => errorCode
    errorMessage := errorMessage
    ipAddress := ipAddress }

/-- `logSuccess` and the in-stream `message_stop` log: status `"success"`,
token totals as recorded. -/
def logSuccessRecord (channelID : Int) (requestID modelName upstreamModel : String)
    (inputTokens outputTokens : Int) (ipAddress : String) : RequestLog :=
  { channelID := channelID
    requestID := requestID
    modelName := modelName
    upstreamModel := upstreamModel
    inputTokens := inputTokens
    outputTokens := outputTokens
    totalTokens := inputTokens + outputTokens
    status := "success"
    errorCode := ""
    errorMessage := ""
    ipAddress := ipAddress }

/-! ## The network oracle

What `s.client.Do` and the subsequent body reads observe for one attempt.
A dropped connection mid-stream and a normal end of stream are the same
thing to the byte-at-a-time reader (`Read` returns an error either way), so
both are modelled as the byte list simply ending. -/

/-- Outcome of `s.client.Do` for one candidate attempt. -/
inductive Upstream where
  | dialError (msg : String) : Upstream
  | resp (status : Nat) (body : List Char) : Upstream
deriving DecidableEq

/-- Whether the attempt's upstream call produced a confirmed 2xx
(the code tests `StatusCode != http.StatusOK`, i.e. exactly 200). -/
def Upstream.ok200 : Upstream → Bool
  | .dialError _ => false
  | .resp status _ => status = 200

/-- `json.Unmarshal(body, &errResp)` for `model.AnthropicErrorResponse`:
succeeds on any JSON object (absent fields become zero values), fails on
invalid JSON or a non-object document.  Returns `(Error.Type, Error.Message)`. -/
def decodeErrResp : Json → Option (String × String)
  | .obj fs =>
    let err := (Json.obj fs).getField "error"
    some ((err.bind (·.strField "type")).getD "",
          (err.bind (·.strField "message")).getD "")
  | _ => none

/-- `json.Unmarshal(body, &response)` for `model.AnthropicMessageResponse`:
succeeds on a JSON object, with absent fields decoding to zero values. -/
def decodeAnthResp : Json → Option AnthropicMessageResponse
  | .obj fs =>
    let j := Json.obj fs
    some { id := (j.strField "id").getD ""
           content := (match j.getField "content" with
             | some (.arr blocks) =>
               blocks.map (fun b =>
                 { type := (b.strField "type").getD ""
                   text := (b.strField "text").getD "" })
             | _ => [])
           stopReason := (j.strField "stop_reason").getD ""
           usage := (match j.getField "usage" with
             | some u =>
               { inputTokens := (u.numField "input_tokens").getD 0
                 outputTokens := (u.numField "output_tokens").getD 0 }
             | none => { inputTokens := 0, outputTokens := 0 }) }
  | _ => none

/-! ## Non-streaming attempt (`proxyToChannel`) and orchestrator (`ProxyMessage`) -/

/-- Result of one non-streaming attempt: every branch of `proxyToChannel`
hands exactly one record to the Log Sink, and only the success branch
returns a response. -/
structure NSAttemptOut where
  log : RequestLog
  result : Option AnthropicMessageResponse
deriving DecidableEq

/-- `proxyToChannel`: dial failure, non-2xx status (with the error body
decoded when possible), unparseable success body, or a parsed response.
`json.Marshal` of the outbound struct cannot fail and is not modelled. -/
def proxyToChannelM (parse : String → Option Json)
    (reqModel requestID ip callerKey : String)
    (channel : Option Channel) (upstreamModel : String) (up : Upstream) :
    NSAttemptOut :=
  let cand := candidateOf channel callerKey upstreamModel
  match up with
  | .dialError msg =>
    { log := logErrorRecord cand.channelID requestID reqModel upstreamModel
        none "http_request" msg ip
      result := none }
  | .resp status body =>
    let respBody := String.mk body
    if status ≠ 200 then
      match (parse respBody).bind decodeErrResp with
      | some (t, m) =>
        { log := logErrorRecord cand.channelID requestID reqModel upstreamModel
            (some status) t m ip
          result := none }
      | none =>
        { log := logErrorRecord cand.channelID requestID reqModel upstreamModel
            (some status) "unknown" respBody ip
          result := none }
    else
      match (parse respBody).bind decodeAnthResp with
      | some resp =>
        { log := logSuccessRecord cand.channelID requestID reqModel upstreamModel
            resp.usage.inputTokens resp.usage.outputTokens ip
          result := some resp }
      | none =>
        { log := logErrorRecord cand.channelID requestID reqModel upstreamModel
            (some status) "parse_response" "unmarshal error" ip
          result := none }

/-- One candidate as the orchestrator loop sees it: the mapping row, the
`channelRepo.GetByID` result (`none` models a lookup error), and the
network's behavior should this candidate be attempted. -/
structure CandidateEntry where
  mapping : ModelMapping
  channel : Option Channel
  upstream : Upstream
deriving DecidableEq

/-- The `!mapping.IsEnabled` / `GetByID` error / `!channel.IsActive` skip
tests shared by all four orchestrator loops. -/
def CandidateEntry.attemptable (e : CandidateEntry) : Bool :=
  e.mapping.isEnabled &&
    (match e.channel with
     | some ch => ch.isActive
     | none => false)

/-- A finished non-streaming run: the candidates actually dispatched (with
their attempt outcome) in order, and the final response if any. -/
structure NSRun where
  attempts : List (Candidate × NSAttemptOut)
  result : Option AnthropicMessageResponse

/-- The records handed to the Log Sink over the whole run. -/
def NSRun.logs (r : NSRun) : List RequestLog :=
  r.attempts.map (fun a => a.2.log)

/-- The dispatch of one loop iteration: `proxyToChannel` applied to the
entry's channel, upstream model and network behavior. -/
def nsAttemptOf (parse : String → Option Json)
    (reqModel requestID ip callerKey : String) (e : CandidateEntry) :
    NSAttemptOut :=
  proxyToChannelM parse reqModel requestID ip callerKey
    e.channel e.mapping.upstreamModel e.upstream

/-- The candidate loop of `ProxyMessage` (lines 52–77): skip disabled
mappings, failed channel lookups and inactive channels; stop at the first
attempt that returns a response; otherwise fall through to
`all channels failed`. -/
def proxyMessageLoop (parse : String → Option Json)
    (reqModel requestID ip callerKey : String) :
    List CandidateEntry → NSRun
  | [] => { attempts := [], result := none }
  | e :: rest =>
    if e.attemptable then
      let out := nsAttemptOf parse reqModel requestID ip callerKey e
      let cand := candidateOf e.channel callerKey e.mapping.upstreamModel
      match out.result with
      | some resp => { attempts := [(cand, out)], result := some resp }
      | none =>
        let r := proxyMessageLoop parse reqModel requestID ip callerKey rest
        { attempts := (cand, out) :: r.attempts, result := r.result }
    else
      proxyMessageLoop parse reqModel requestID ip callerKey rest

/-- `ProxyMessage`: an empty mapping list (or a mapping-store error, which
the code treats identically) short-circuits to a single fallback attempt
with no channel object and the raw display name as upstream model. -/
def proxyMessageM (parse : String → Option Json)
    (reqModel requestID ip callerKey : String)
    (entries : List CandidateEntry) (fallbackUp : Upstream) : NSRun :=
  if entries.isEmpty then
    let out := proxyToChannelM parse reqModel requestID ip callerKey
      none reqModel fallbackUp
    { attempts := [(candidateOf none callerKey reqModel, out)],
      result := out.result }
  else
    proxyMessageLoop parse reqModel requestID ip callerKey entries

/-! ## Streaming Translator and streaming attempts -/

/-- One write to the caller's `http.ResponseWriter`.  Raw SSE bytes are kept
verbatim; a marshalled `model.OpenAIStreamChunk` (the `json.Marshal` +
`"data: "`/`"\n\n"` framing around it) is kept as a structured frame, since
its exact byte serialization is the JSON library's. -/
inductive WriteItem where
  | raw (s : String) : WriteItem
  | chunk (id model : String) (deltaRole deltaContent : Option String)
      (finishReason : Option String) : WriteItem
deriving DecidableEq

/-- The running token counters of a streaming attempt
(`inputTokens`/`outputTokens` locals of `proxyStreamToChannel`). -/
structure StreamState where
  inputTokens : Int
  outputTokens : Int
deriving DecidableEq

/-- One iteration of the `proxyStreamToChannel` scan loop (Anthropic-native
streaming path, lines 313–393): forward `event:` and `data:` lines, track
usage, and hand one success record to the Log Sink per `message_stop` event
— with the counter values current *before* this event's own extraction. -/
def anthStreamStep (parse : String → Option Json) (channelID : Int)
    (requestID reqModel upstreamModel ip : String)
    (st : StreamState) (line : List Char) :
    StreamState × List WriteItem × List RequestLog :=
  if line.isEmpty then (st, [], [])
  else if beginsWith line ("event:".data) then
    (st, [.raw (String.mk line), .raw "\n"], [])
  else if beginsWith line ("data:".data) then
    let dataStr := trimSpace (line.drop 5)
    if dataStr.isEmpty then (st, [], [])
    else
      let (st', logs) :=
        match parse (String.mk dataStr) with
        | none => (st, [])
        | some ev =>
          let logs :=
            if ev.strField "type" = some "message_stop" then
              [logSuccessRecord channelID requestID reqModel upstreamModel
                st.inputTokens st.outputTokens ip]
            else []
          let newInput :=
            match ((ev.getField "message").bind (·.getField "usage")).bind
                (·.numField "input_tokens") with
            | some n => n
            | none => st.inputTokens
          let newOutput :=
            if ev.strField "type" = some "message_delta" then
              match (ev.getField "usage").bind (·.numField "output_tokens") with
              | some n => n
              | none => st.outputTokens
            else st.outputTokens
          ({ inputTokens := newInput, outputTokens := newOutput }, logs)
      (st', [.raw (String.mk line), .raw "\n\n"], logs)
  else (st, [], [])

/-- The whole `proxyStreamToChannel` scan loop over the lines the scanner
delivers. -/
def anthStreamRun (parse : String → Option Json) (channelID : Int)
    (requestID reqModel upstreamModel ip : String) :
    StreamState → List (List Char) → StreamState × List WriteItem × List RequestLog
  | st, [] => (st, [], [])
  | st, line :: rest =>
    let (st', w, lg) :=
      anthStreamStep parse channelID requestID reqModel upstreamModel ip st line
    let (st'', w', lg') :=
      anthStreamRun parse channelID requestID reqModel upstreamModel ip st' rest
    (st'', w ++ w', lg ++ lg')

/-- One iteration of the `convertAnthropicStreamToOpenAI` scan loop
(translate mode): state is the `hasData` flag; 0 or 1 OpenAI chunk frames
are emitted per input event, plus the `data: [DONE]` sentinel after the
`message_stop` chunk.  A `data:` payload that fails to parse as JSON is
skipped. -/
def convertStreamStep (parse : String → Option Json)
    (displayModel messageID : String)
    (hasData : Bool) (line : List Char) : Bool × List WriteItem :=
  if line.isEmpty then (hasData, [])
  else if beginsWith line ("event:".data) then (hasData, [])
  else if beginsWith line ("data:".data) then
    let dataStr := trimSpace (line.drop 5)
    if dataStr.isEmpty then (hasData, [])
    else
      match parse (String.mk dataStr) with
      | none => (hasData, [])
      | some ev =>
        let eventType := (ev.strField "type").getD ""
        if eventType = "content_block_delta" then
          match (ev.getField "delta").bind (·.strField "text") with
          | some text =>
            (true, [.chunk messageID displayModel none (some text) none])
          | none => (hasData, [])
        else if eventType = "message_start" then
          (true, [.chunk messageID displayModel (some "assistant") none none])
        else if eventType = "message_stop" then
          (hasData, [.chunk messageID displayModel none none (some "stop"),
                     .raw "data: [DONE]\n\n"])
        else (hasData, [])
  else (hasData, [])

/-- The `convertAnthropicStreamToOpenAI` loop over scanned lines, returning
the final `hasData` flag and the frames written. -/
def convertStreamRun (parse : String → Option Json)
    (displayModel messageID : String) :
    Bool → List (List Char) → Bool × List WriteItem
  | hasData, [] => (hasData, [])
  | hasData, line :: rest =>
    let (h', w) := convertStreamStep parse displayModel messageID hasData line
    let (h'', w') := convertStreamRun parse displayModel messageID h' rest
    (h'', w ++ w')

/-- `convertAnthropicStreamToOpenAI` (lines 956–1067): the synthetic
completion id is `"chatcmpl-" + requestID`. -/
def convertAnthropicStreamToOpenAI (parse : String → Option Json)
    (displayModel requestID : String) (lines : List (List Char)) :
    Bool × List WriteItem :=
  convertStreamRun parse displayModel ("chatcmpl-" ++ requestID) false lines

/-- One iteration of the passthrough loop of `proxyChatStreamToChannel`
(upstream already speaks OpenAI): forward each `data:` line with a blank
line after it, drop comment (`:`) lines, never touch token counters. -/
def passStreamStep (hasData : Bool) (line : List Char) : Bool × List WriteItem :=
  if line.isEmpty then (hasData, [])
  else if beginsWith line (":".data) then (hasData, [])
  else if beginsWith line ("data:".data) then
    (true, [.raw (String.mk line), .raw "\n\n"])
  else (hasData, [])

/-- The passthrough loop over scanned lines. -/
def passStreamRun : Bool → List (List Char) → Bool × List WriteItem
  | hasData, [] => (hasData, [])
  | hasData, line :: rest =>
    let (h', w) := passStreamStep hasData line
    let (h'', w') := passStreamRun h' rest
    (h'', w ++ w')

/-- Result of one streaming attempt.  `headersSet` records whether the
attempt reached `w.Header().Set(...)` inside the `proxy*StreamToChannel`
function; nothing is transmitted to the caller until the first entry of
`writes` (HTTP sends headers with the first body write).  `err = none`
models a `nil` return. -/
structure StreamAttemptOut where
  headersSet : Bool
  writes : List WriteItem
  logs : List RequestLog
  err : Option String
deriving DecidableEq

/-- `proxyStreamToChannel` (lines 225–396): validate the upstream status
before touching the response; only on a confirmed 200 are the streaming
headers set and the scan loop entered.  `flushOk` is the
`w.(http.Flusher)` assertion. -/
def proxyStreamToChannelM (parse : String → Option Json)
    (reqModel requestID ip callerKey : String)
    (channel : Option Channel) (upstreamModel : String) (up : Upstream)
    (flushOk : Bool) : StreamAttemptOut :=
  let cand := candidateOf channel callerKey upstreamModel
  match up with
  | .dialError msg =>
    { headersSet := false, writes := [],
      logs := [logErrorRecord cand.channelID requestID reqModel upstreamModel
        none "http_request" msg ip],
      err := some msg }
  | .resp status body =>
    if status ≠ 200 then
      let respBody := String.mk body
      match (parse respBody).bind decodeErrResp with
      | some (t, m) =>
        { headersSet := false, writes := [],
          logs := [logErrorRecord cand.channelID requestID reqModel upstreamModel
            (some status) t m ip],
          err := some ("API error: " ++ t ++ " - " ++ m) }
      | none =>
        { headersSet := false, writes := [],
          logs := [logErrorRecord cand.channelID requestID reqModel upstreamModel
            (some status) "unknown" respBody ip],
          err := some "API error" }
    else if !flushOk then
      { headersSet := true, writes := [], logs := [],
        err := some "streaming not supported" }
    else
      let (_, w, lg) := anthStreamRun parse cand.channelID requestID reqModel
        upstreamModel ip { inputTokens := 0, outputTokens := 0 } (scanLines body)
      { headersSet := true, writes := w, logs := lg, err := none }

/-- `proxyChatStreamToChannel` (lines 797–953): same pre-commit validation;
after commit the stream is translated (anthropic flavor) or passed through,
and one success record is handed to the Log Sink iff any data frame was
forwarded — with no token counts (the streaming chat log carries none). -/
def proxyChatStreamToChannelM (parse : String → Option Json)
    (reqModel requestID ip callerKey : String)
    (channel : Option Channel) (upstreamModel : String) (up : Upstream)
    (flushOk : Bool) : StreamAttemptOut :=
  let cand := candidateOf channel callerKey upstreamModel
  match up with
  | .dialError msg =>
    { headersSet := false, writes := [],
      logs := [logErrorRecord cand.channelID requestID reqModel upstreamModel
        none "http_request" msg ip],
      err := some msg }
  | .resp status body =>
    if status ≠ 200 then
      let respBody := String.mk body
      { headersSet := false, writes := [],
        logs := [logErrorRecord cand.channelID requestID reqModel upstreamModel
          (some status) "api_error" respBody ip],
        err := some "API error" }
    else if !flushOk then
      { headersSet := true, writes := [], logs := [],
        err := some "streaming not supported" }
    else
      let (hasData, w) :=
        if cand.provider = "anthropic" then
          convertAnthropicStreamToOpenAI parse reqModel requestID (scanLines body)
        else
          passStreamRun false (scanLines body)
      { headersSet := true, writes := w,
        logs := if hasData then
            [logSuccessRecord cand.channelID requestID reqModel upstreamModel
              0 0 ip]
          else [],
        err := none }

/-! ## Streaming orchestrators (`ProxyMessageStream`, `ProxyChatStream`) -/

/-- The candidate loop shared by `ProxyMessageStream` (lines 193–221) and
`ProxyChatStream` (lines 767–793): skip unusable candidates; a `nil`
attempt ends the run successfully; a failed attempt ends the run if the
response has been started (`rw.Written()`, i.e. any byte reached the
caller), else records `lastErr` and advances; exhaustion surfaces `lastErr`
or the `all channels failed` error. -/
def streamLoop (attempt : Option Channel → String → Upstream → StreamAttemptOut)
    (writtenSoFar : Bool) (lastErr : Option String) :
    List CandidateEntry → List StreamAttemptOut × Option String
  | [] =>
    ([], match lastErr with
         | some e => some e
         | none => some "all channels failed")
  | e :: rest =>
    if e.attemptable then
      let out := attempt e.channel e.mapping.upstreamModel e.upstream
      match out.err with
      | none => ([out], none)
      | some er =>
        let written := writtenSoFar || !out.writes.isEmpty
        if written then ([out], some er)
        else
          let (outs, res) := streamLoop attempt written (some er) rest
          (out :: outs, res)
    else streamLoop attempt writtenSoFar lastErr rest

/-- `ProxyMessageStream`: empty mapping list (or mapping-store error) means
one fallback attempt with the caller's credential and the raw model name. -/
def proxyMessageStreamM (parse : String → Option Json)
    (reqModel requestID ip callerKey : String)
    (entries : List CandidateEntry) (fallbackUp : Upstream) (flushOk : Bool) :
    List StreamAttemptOut × Option String :=
  if entries.isEmpty then
    let out := proxyStreamToChannelM parse reqModel requestID ip callerKey
      none reqModel fallbackUp flushOk
    ([out], out.err)
  else
    streamLoop
      (fun ch um up =>
        proxyStreamToChannelM parse reqModel requestID ip callerKey ch um up flushOk)
      false none entries

/-- `ProxyChatStream`: same shape over the chat attempt. -/
def proxyChatStreamM (parse : String → Option Json)
    (reqModel requestID ip callerKey : String)
    (entries : List CandidateEntry) (fallbackUp : Upstream) (flushOk : Bool) :
    List StreamAttemptOut × Option String :=
  if entries.isEmpty then
    let out := proxyChatStreamToChannelM parse reqModel requestID ip callerKey
      none reqModel fallbackUp flushOk
    ([out], out.err)
  else
    streamLoop
      (fun ch um up =>
        proxyChatStreamToChannelM parse reqModel requestID ip callerKey ch um up flushOk)
      false none entries

/-- All records a streaming run hands to the Log Sink. -/
def streamRunLogs (outs : List StreamAttemptOut) : List RequestLog :=
  (outs.map (fun o => o.logs)).flatten

/-- Every attempt before the last one in a streaming run wrote nothing to
the caller (so no byte had been flushed when a further candidate was
tried). -/
def earlierWritesEmpty : List StreamAttemptOut → Bool
  | [] => true
  | [_] => true
  | out :: rest => out.writes.isEmpty && earlierWritesEmpty rest

/-- The condition under which one scan-loop iteration of
`proxyStreamToChannel` hands a success record to the Log Sink: a non-blank
`data:` line whose payload parses to an event of type `message_stop`. -/
def isMessageStopLine (parse : String → Option Json) (line : List Char) : Bool :=
  if line.isEmpty then false
  else if beginsWith line ("event:".data) then false
  else if beginsWith line ("data:".data) then
    let dataStr := trimSpace (line.drop 5)
    if dataStr.isEmpty then false
    else
      match parse (String.mk dataStr) with
      | none => false
      | some ev => ev.strField "type" = some "message_stop"
  else false

/-! ## Concrete fixtures for witnesses and counterexamples -/

/-- An active anthropic-flavored channel. -/
def chanA : Channel :=
  { id := 1, baseURL := "https://a.example", apiKey := "key-a",
    provider := "anthropic", isActive := true, timeout := 30 }

/-- A second active anthropic-flavored channel. -/
def chanB : Channel :=
  { id := 2, baseURL := "https://b.example", apiKey := "key-b",
    provider := "anthropic", isActive := true, timeout := 30 }

/-- An active channel whose provider flavor is not `anthropic`. -/
def chanOpenAI : Channel :=
  { id := 7, baseURL := "https://up.example", apiKey := "sk-chan",
    provider := "openai", isActive := true, timeout := 60 }

/-- Enabled mapping of display model `disp` onto `chanA`. -/
def mapA : ModelMapping :=
  { channelID := 1, upstreamModel := "claude-a", displayModel := "disp",
    isEnabled := true }

/-- Enabled mapping of display model `disp` onto `chanB`. -/
def mapB : ModelMapping :=
  { channelID := 2, upstreamModel := "claude-b", displayModel := "disp",
    isEnabled := true }

/-- `message_start` event with `usage.input_tokens = 10`, as decoded JSON. -/
def msgStartEv : Json :=
  .obj [("type", .str "message_start"),
        ("message", .obj [("id", .str "msg_1"),
                          ("usage", .obj [("input_tokens", .num 10),
                                          ("output_tokens", .num 1)])])]

/-- `content_block_delta` event carrying the text `"Hi"`. -/
def cbdEv : Json :=
  .obj [("type", .str "content_block_delta"),
        ("index", .num 0),
        ("delta", .obj [("type", .str "text_delta"), ("text", .str "Hi")])]

/-- `message_delta` event with cumulative `usage.output_tokens = 3`. -/
def msgDeltaEv : Json :=
  .obj [("type", .str "message_delta"),
        ("delta", .obj [("stop_reason", .str "end_turn")]),
        ("usage", .obj [("output_tokens", .num 3)])]

/-- `message_stop` event. -/
def msgStopEv : Json :=
  .obj [("type", .str "message_stop")]

/-- Raw payload of `msgStartEv`. -/
def msgStartPayload : String :=
  "\x7b\"type\":\"message_start\",\"message\":\x7b\"id\":\"msg_1\",\"usage\":\x7b\"input_tokens\":10,\"output_tokens\":1\x7d\x7d\x7d"

/-- Raw payload of `cbdEv`. -/
def cbdPayload : String :=
  "\x7b\"type\":\"content_block_delta\",\"index\":0,\"delta\":\x7b\"type\":\"text_delta\",\"text\":\"Hi\"\x7d\x7d"

/-- Raw payload of `msgDeltaEv`. -/
def msgDeltaPayload : String :=
  "\x7b\"type\":\"message_delta\",\"delta\":\x7b\"stop_reason\":\"end_turn\"\x7d,\"usage\":\x7b\"output_tokens\":3\x7d\x7d"

/-- Raw payload of `msgStopEv`. -/
def msgStopPayload : String :=
  "\x7b\"type\":\"message_stop\"\x7d"

/-- A successful non-streaming Anthropic response body, decoded. -/
def okRespJson : Json :=
  .obj [("id", .str "msg_ok"),
        ("content", .arr [.obj [("type", .str "text"), ("text", .str "Hello")]]),
        ("stop_reason", .str "end_turn"),
        ("usage", .obj [("input_tokens", .num 5), ("output_tokens", .num 7)])]

/-- Raw body of `okRespJson`. -/
def okRespPayload : String :=
  "\x7b\"id\":\"msg_ok\",\"content\":[\x7b\"type\":\"text\",\"text\":\"Hello\"\x7d],\"stop_reason\":\"end_turn\",\"usage\":\x7b\"input_tokens\":5,\"output_tokens\":7\x7d\x7d"

/-- A fixed JSON decoder covering the payloads of the fixtures (the model
of `json.Unmarshal` for those exact documents; everything else is treated
as undecodable). -/
def parseFix : String → Option Json := fun s =>
  if s = msgStartPayload then some msgStartEv
  else if s = cbdPayload then some cbdEv
  else if s = msgDeltaPayload then some msgDeltaEv
  else if s = msgStopPayload then some msgStopEv
  else if s = okRespPayload then some okRespJson
  else none

/-- The C4 test stream: the four Anthropic events as consecutive `data:`
lines (each line terminated by a single newline, so the scanner delivers
all four — see the blank-line behavior established for C5). -/
def c4Body : List Char :=
  ("data: " ++ msgStartPayload ++ "\n"
    ++ "data: " ++ cbdPayload ++ "\n"
    ++ "data: " ++ msgDeltaPayload ++ "\n"
    ++ "data: " ++ msgStopPayload ++ "\n").data

/-- First candidate for the failover scenarios: `chanA`, dial failure. -/
def entryFail : CandidateEntry :=
  { mapping := mapA, channel := some chanA,
    upstream := .dialError "connection refused" }

/-- Second candidate: `chanB`, successful 200 response. -/
def entryOk : CandidateEntry :=
  { mapping := mapB, channel := some chanB,
    upstream := .resp 200 okRespPayload.data }

/-- A stream that commits (200) and then drops before any `message_stop`
event: two data frames, then the connection ends. -/
def dropBody : List Char :=
  ("data: " ++ msgStartPayload ++ "\n" ++ "data: " ++ cbdPayload ++ "\n").data

/-- A streaming candidate that commits (200) and then drops before any
`message_stop` event. -/
def entryDrop : CandidateEntry :=
  { mapping := mapA, channel := some chanA, upstream := .resp 200 dropBody }

/-- A spare healthy streaming candidate that must never be reached after a
post-commit drop. -/
def entrySpare : CandidateEntry :=
  { mapping := mapB, channel := some chanB, upstream := .resp 200 c4Body }

/-! # Theorems -/

/-! ## Helper lemmas -/

theorem scanLines_none {input : List Char} (h : scanStep [] input = none) :
    scanLines input = [] := by
  simp [scanLines, scanLinesFuel, h]

theorem scanLinesFuel_succ (f : Nat) (input : List Char) :
    scanLinesFuel (f + 1) input =
      (match scanStep [] input with
       | none => []
       | some (l, rest) => l :: scanLinesFuel f rest) := rfl

theorem scanLines_some {input : List Char} {l rest : List Char}
    (h : scanStep [] input = some (l, rest)) :
    scanLines input = l :: scanLines rest := by
  cases input with
  | nil => simp [scanStep] at h
  | cons c cs =>
    have hlt := scanStep_rest_lt [] c cs h
    have e1 : scanLines (c :: cs) = l :: scanLinesFuel (cs.length + 1) rest := by
      show scanLinesFuel (cs.length + 1 + 1) (c :: cs) = _
      rw [scanLinesFuel_succ, h]
    rw [e1, scanLinesFuel_congr (cs.length + 1) (rest.length + 1) rest
      (by simpa using hlt) (by omega)]
    rfl

theorem scanStep_clean (pre tail : List Char) :
    ∀ acc : List Char, (∀ c ∈ pre, c ≠ '\n' ∧ c ≠ '\r') → acc ++ pre ≠ [] →
      scanStep acc (pre ++ '\n' :: tail) = some (acc ++ pre, tail) := by
  induction pre with
  | nil =>
    intro acc _ hne
    simp only [List.append_nil] at hne ⊢
    have hacc : acc.isEmpty = false := by
      cases acc with
      | nil => exact absurd rfl hne
      | cons _ _ => rfl
    simp [scanStep, hacc]
  | cons c cs ih =>
    intro acc hcl hne
    have hc1 : c ≠ '\n' := (hcl c (by simp)).1
    have hc2 : c ≠ '\r' := (hcl c (by simp)).2
    simp only [List.cons_append, scanStep, if_neg hc1, if_neg hc2,
      List.append_eq]
    rw [ih (acc ++ [c]) (fun d hd => hcl d (by simp [hd])) (by simp)]
    simp

theorem scanStep_no_newline :
    ∀ (cs acc : List Char), '\n' ∉ cs →
      scanStep acc cs =
        (if (acc ++ cs.filter (fun c => !(c == '\r'))).isEmpty then none
         else some (acc ++ cs.filter (fun c => !(c == '\r')), [])) := by
  intro cs
  induction cs with
  | nil =>
    intro acc _
    simp [scanStep]
  | cons c cs ih =>
    intro acc hnin
    have hc1 : c ≠ '\n' := fun h => hnin (by simp [h])
    have hrest : '\n' ∉ cs := fun h => hnin (List.mem_cons_of_mem _ h)
    by_cases hc2 : c = '\r'
    · subst hc2
      simp only [scanStep, if_neg hc1, if_pos rfl]
      rw [ih acc hrest]
      simp
    · have hb : (c == '\r') = false := by simp [hc2]
      simp only [scanStep, if_neg hc1, if_neg hc2]
      rw [ih (acc ++ [c]) hrest]
      simp [hb]

theorem getLast?_elim_cons {α β : Type} (x : α) (l : List α) (d : β) (f : α → β) :
    ((x :: l).getLast?).elim d f = (l.getLast?).elim (f x) f := by
  induction l generalizing x d with
  | nil => rfl
  | cons y ys ih =>
    rw [List.getLast?_cons_cons, ih y d, ← ih y (f x)]

theorem convertMessageStep_foldl (msgs : List OpenAIMessage)
    (acc : List Message) (sys : String) :
    msgs.foldl convertMessageStep (acc, sys) =
      (acc ++ (msgs.filter (fun m => !(m.role == "system"))).map
          (fun m =>
            Message.mk (if m.role = "assistant" then "assistant" else "user")
              (extractContent m.content)),
       ((msgs.filter (fun m => m.role == "system")).getLast?.elim sys
          (fun m => extractContent m.content))) := by
  induction msgs generalizing acc sys with
  | nil => simp
  | cons m rest ih =>
    by_cases hrole : m.role = "system"
    · simp only [List.foldl_cons, convertMessageStep, hrole, if_pos rfl,
        List.filter_cons]
      rw [ih]
      simp [hrole, getLast?_elim_cons]
    · have hb : (m.role == "system") = false := by
        simp [hrole]
      simp only [List.foldl_cons, convertMessageStep, if_neg hrole,
        List.filter_cons, hb]
      rw [ih]
      simp

/-! ## C5 — lineScanner blank-line and partial-line behavior -/

/-- C5: `lineScanner.Scan` returns `false` when the next unconsumed byte is
a newline with no buffered line (an empty line), even when further bytes
follow — so scanning stops at the first blank line of the stream — and when
the input ends mid-line with a non-empty buffer, `Scan` returns `true` with
that partial line (carriage returns stripped). -/
theorem scan_stops_at_blank_line_and_keeps_final_fragment :
    (∀ rest : List Char, scanStep [] ('\n' :: rest) = none) ∧
    (∀ pre rest : List Char, pre ≠ [] → (∀ c ∈ pre, c ≠ '\n' ∧ c ≠ '\r') →
        scanLines (pre ++ '\n' :: '\n' :: rest) = [pre]) ∧
    (∀ cs : List Char, '\n' ∉ cs → cs.filter (fun c => !(c == '\r')) ≠ [] →
        scanStep [] cs = some (cs.filter (fun c => !(c == '\r')), [])) := by
  refine ⟨?_, ?_, ?_⟩
  · intro rest
    simp [scanStep]
  · intro pre rest hne hclean
    have h1 := scanStep_clean pre ('\n' :: rest) [] hclean (by simpa)
    simp only [List.nil_append] at h1
    rw [scanLines_some h1]
    rw [scanLines_none (by simp [scanStep])]
  · intro cs hnin hfil
    rw [scanStep_no_newline cs [] hnin]
    simp only [List.nil_append]
    rw [if_neg (by simpa [List.isEmpty_iff] using hfil)]

/-- C5 witness: concrete blank-line stop (bytes follow the blank line but
iteration ends), and a concrete partial final line delivered on a stream
that ends mid-line. -/
theorem scan_stops_at_blank_line_and_keeps_final_fragment_witness :
    scanStep [] ('\n' :: ("more bytes".data)) = none ∧
    scanLines (("data: x".data) ++ '\n' :: '\n' :: ("data: y".data))
      = ["data: x".data] ∧
    scanStep [] ("partial li".data)
      = some (("partial li".data).filter (fun c => !(c == '\r')), []) :=
  ⟨scan_stops_at_blank_line_and_keeps_final_fragment.1 _,
   scan_stops_at_blank_line_and_keeps_final_fragment.2.1 _ _ (by decide) (by decide),
   scan_stops_at_blank_line_and_keeps_final_fragment.2.2 _ (by decide) (by decide)⟩

/-! ## C9 — malformed `data:` payloads are skipped -/

theorem convertStreamStep_bad_payload (parse : String → Option Json)
    (dm mid : String) (hasData : Bool) (payload : List Char)
    (hbad : parse (String.mk (trimSpace payload)) = none) :
    convertStreamStep parse dm mid hasData
      ('d' :: 'a' :: 't' :: 'a' :: ':' :: payload) = (hasData, []) := by
  by_cases hemp : (trimSpace payload).isEmpty
  · simp [convertStreamStep, beginsWith, hemp]
  · simp [convertStreamStep, beginsWith, hemp, hbad]

theorem convertStreamRun_bad_payload (parse : String → Option Json)
    (dm mid : String) (payload : List Char) (ls2 : List (List Char))
    (hbad : parse (String.mk (trimSpace payload)) = none) :
    ∀ (hasData : Bool) (ls1 : List (List Char)),
      convertStreamRun parse dm mid hasData
          (ls1 ++ ('d' :: 'a' :: 't' :: 'a' :: ':' :: payload) :: ls2)
        = convertStreamRun parse dm mid hasData (ls1 ++ ls2) := by
  intro hasData ls1
  induction ls1 generalizing hasData with
  | nil =>
    simp only [List.nil_append, convertStreamRun]
    rw [convertStreamStep_bad_payload parse dm mid hasData payload hbad]
    simp
  | cons l ls ih =>
    simp only [List.cons_append, convertStreamRun]
    rcases hst : convertStreamStep parse dm mid hasData l with ⟨h', w⟩
    simp only [hst, List.append_eq]
    rw [ih h']

/-- C9: a `data:` line whose payload fails to parse as JSON is skipped
without terminating the stream — the translation of the whole line sequence
equals the translation with that line removed, so every frame forwarded
before it is unchanged and processing of the lines after it continues. -/
theorem malformed_data_line_skipped (parse : String → Option Json)
    (displayModel requestID : String) (payload : List Char)
    (ls1 ls2 : List (List Char))
    (hbad : parse (String.mk (trimSpace payload)) = none) :
    convertAnthropicStreamToOpenAI parse displayModel requestID
        (ls1 ++ ('d' :: 'a' :: 't' :: 'a' :: ':' :: payload) :: ls2)
      = convertAnthropicStreamToOpenAI parse displayModel requestID
        (ls1 ++ ls2) :=
  convertStreamRun_bad_payload parse displayModel _ payload ls2 hbad false ls1

/-- C9 witness: a concrete malformed `data:` line between two well-formed
events translates exactly as the stream without it. -/
theorem malformed_data_line_skipped_witness :
    convertAnthropicStreamToOpenAI parseFix "disp" "req-1"
        [("data: " ++ msgStartPayload).data,
         ('d' :: 'a' :: 't' :: 'a' :: ':' :: " \x7boops".data),
         ("data: " ++ msgStopPayload).data]
      = convertAnthropicStreamToOpenAI parseFix "disp" "req-1"
        [("data: " ++ msgStartPayload).data,
         ("data: " ++ msgStopPayload).data] :=
  malformed_data_line_skipped parseFix "disp" "req-1" (" \x7boops".data)
    [("data: " ++ msgStartPayload).data]
    [("data: " ++ msgStopPayload).data]
    rfl

/-! ## C4 — message_delta overwrites the output-token counter; the
four-event example stream -/

set_option maxRecDepth 8000 in
/-- C4 counterexample: on the event stream
`message_start{usage.input_tokens=10}`, `content_block_delta{text:"Hi"}`,
`message_delta{usage.output_tokens=3}`, `message_stop`, streaming translate
mode (`proxyChatStreamToChannel` with an anthropic-flavored channel) does
produce exactly 3 OpenAI chunks and the `data: [DONE]` sentinel — but the
record that same execution hands to the Log Sink carries
`input_tokens = 0, output_tokens = 0`, not 10 and 3: the translate loop has
no `message_delta` case and tracks no counters, and its success log sets no
token fields.  No execution of translate mode satisfies the claim's
conjunction. -/
theorem translate_mode_logs_zero_token_counts :
    ((proxyChatStreamToChannelM parseFix "disp" "req-1" "ip" "ck"
        (some chanA) "claude-a" (.resp 200 c4Body) true).writes
      = [.chunk "chatcmpl-req-1" "disp" (some "assistant") none none,
         .chunk "chatcmpl-req-1" "disp" none (some "Hi") none,
         .chunk "chatcmpl-req-1" "disp" none none (some "stop"),
         .raw "data: [DONE]\n\n"]) ∧
    ((proxyChatStreamToChannelM parseFix "disp" "req-1" "ip" "ck"
        (some chanA) "claude-a" (.resp 200 c4Body) true).logs.map
          (fun l => (l.inputTokens, l.outputTokens)) = [(0, 0)]) ∧
    ¬ ((proxyChatStreamToChannelM parseFix "disp" "req-1" "ip" "ck"
        (some chanA) "claude-a" (.resp 200 c4Body) true).logs.map
          (fun l => (l.inputTokens, l.outputTokens)) = [(10, 3)]) := by
  refine ⟨rfl, rfl, fun h => ?_⟩
  rw [show (proxyChatStreamToChannelM parseFix "disp" "req-1" "ip" "ck"
      (some chanA) "claude-a" (.resp 200 c4Body) true).logs.map
        (fun l => (l.inputTokens, l.outputTokens))
      = [((0 : Int), (0 : Int))] from rfl] at h
  exact absurd h (by decide)

set_option maxRecDepth 8000 in
/-- C4 (amended): every `message_delta` event carrying `usage.output_tokens`
sets the running output-token counter to that value, replacing — not adding
to — the previous value (the conclusion holds for *every* prior counter
state); that counter lives in the `/v1/messages` streaming loop
(`proxyStreamToChannel`).  On the event stream
`message_start{usage.input_tokens=10}`, `content_block_delta{text:"Hi"}`,
`message_delta{usage.output_tokens=3}`, `message_stop`, translate mode
produces exactly 3 OpenAI chunks followed by the `data: [DONE]` sentinel but
logs zero token counts (its loop tracks none), while the `/v1/messages`
token-tracking loop — which forwards Anthropic frames, not OpenAI chunks —
finishes with `input_tokens = 10`, `output_tokens = 3` and logs exactly
those counts. -/
theorem message_delta_overwrites_output_tokens :
    (∀ (parse : String → Option Json) (cid : Int)
        (rid rm um ip : String) (st : StreamState) (payload : List Char)
        (ev : Json) (n : Int),
      trimSpace payload ≠ [] →
      parse (String.mk (trimSpace payload)) = some ev →
      ev.strField "type" = some "message_delta" →
      (ev.getField "usage").bind (fun u => u.numField "output_tokens")
        = some n →
      (anthStreamStep parse cid rid rm um ip st
          ('d' :: 'a' :: 't' :: 'a' :: ':' :: payload)).1.outputTokens = n) ∧
    (convertAnthropicStreamToOpenAI parseFix "disp" "req-1" (scanLines c4Body)
      = (true,
         [.chunk "chatcmpl-req-1" "disp" (some "assistant") none none,
          .chunk "chatcmpl-req-1" "disp" none (some "Hi") none,
          .chunk "chatcmpl-req-1" "disp" none none (some "stop"),
          .raw "data: [DONE]\n\n"])) ∧
    ((anthStreamRun parseFix 1 "req-1" "disp" "claude-a" "ip"
        { inputTokens := 0, outputTokens := 0 } (scanLines c4Body)).1
      = { inputTokens := 10, outputTokens := 3 }) ∧
    ((anthStreamRun parseFix 1 "req-1" "disp" "claude-a" "ip"
        { inputTokens := 0, outputTokens := 0 } (scanLines c4Body)).2.2
      = [logSuccessRecord 1 "req-1" "disp" "claude-a" 10 3 "ip"]) ∧
    ((proxyChatStreamToChannelM parseFix "disp" "req-1" "ip" "ck"
        (some chanA) "claude-a" (.resp 200 c4Body) true).writes
      = [.chunk "chatcmpl-req-1" "disp" (some "assistant") none none,
         .chunk "chatcmpl-req-1" "disp" none (some "Hi") none,
         .chunk "chatcmpl-req-1" "disp" none none (some "stop"),
         .raw "data: [DONE]\n\n"]) ∧
    ((proxyChatStreamToChannelM parseFix "disp" "req-1" "ip" "ck"
        (some chanA) "claude-a" (.resp 200 c4Body) true).logs
      = [logSuccessRecord 1 "req-1" "disp" "claude-a" 0 0 "ip"]) := by
  refine ⟨?_, rfl, rfl, rfl, rfl, rfl⟩
  intro parse cid rid rm um ip st payload ev n hemp hparse htype husage
  have hempB : (trimSpace payload).isEmpty = false := by
    simpa [List.isEmpty_iff] using hemp
  simp [anthStreamStep, beginsWith, hempB, hparse, htype, husage]

/-- C4 witness: the overwrite component applied to the concrete
`message_delta{usage.output_tokens=3}` payload from a state whose previous
output-token counter is 55 — the counter becomes 3, not 58. -/
theorem message_delta_overwrites_output_tokens_witness :
    (anthStreamStep parseFix 1 "req-1" "disp" "claude-a" "ip"
        { inputTokens := 10, outputTokens := 55 }
        ('d' :: 'a' :: 't' :: 'a' :: ':' :: (" " ++ msgDeltaPayload).data)).1.outputTokens
      = 3 :=
  message_delta_overwrites_output_tokens.1 parseFix 1 "req-1" "disp" "claude-a"
    "ip" { inputTokens := 10, outputTokens := 55 }
    ((" " ++ msgDeltaPayload).data) msgDeltaEv 3
    (by decide) rfl rfl rfl

/-! ## C10 — Anthropic→OpenAI response conversion -/

/-- C10: converting any Anthropic response to OpenAI format maps
`stop_reason = "max_tokens"` to `finish_reason = "length"` and every other
stop reason to `"stop"`, and the usage totals are the straight sum of the
Anthropic `input_tokens` and `output_tokens`. -/
theorem anthropic_response_conversion_finish_reason_and_usage
    (resp : AnthropicMessageResponse) (displayModel : String) :
    ((convertAnthropicToOpenAI resp displayModel).choices.map
        (fun c => c.finishReason)
      = [if resp.stopReason = "max_tokens" then "length" else "stop"]) ∧
    (convertAnthropicToOpenAI resp displayModel).usage.promptTokens
      = resp.usage.inputTokens ∧
    (convertAnthropicToOpenAI resp displayModel).usage.completionTokens
      = resp.usage.outputTokens ∧
    (convertAnthropicToOpenAI resp displayModel).usage.totalTokens
      = resp.usage.inputTokens + resp.usage.outputTokens := by
  refine ⟨?_, rfl, rfl, rfl⟩
  simp [convertAnthropicToOpenAI]

/-! ## C6 — system-message handling in OpenAI→Anthropic request conversion -/

/-- Request with two system messages followed by a user message. -/
def twoSystemReq : OpenAIChatRequest :=
  { model := "gpt-x"
    messages := [{ role := "system", content := .str "A" },
                 { role := "system", content := .str "B" },
                 { role := "user", content := .str "Y" }]
    maxTokens := none, temperature := none, topP := none, stream := false }

/-- C6 counterexample: with system messages `"A"` then `"B"`, the converter
does not concatenate them — the resulting `system` field is `"B"`, not
`"AB"` (the loop assigns `systemPrompt = content`, so the last system
message wins). -/
theorem multiple_system_messages_not_concatenated :
    (convertOpenAIToAnthropic twoSystemReq "up").system = "B" ∧
    ¬ ((convertOpenAIToAnthropic twoSystemReq "up").system = "A" ++ "B") := by
  constructor
  · rfl
  · intro h
    rw [show (convertOpenAIToAnthropic twoSystemReq "up").system = "B" from rfl] at h
    simp at h

/-- C6 (amended): every `system` message is removed from the message list
(remaining roles coerced to `assistant`/`user`), and the top-level `system`
field is the text of the **last** system message (empty when there is
none) — not the in-order concatenation; the single-system example
`[{system,"X"},{user,"Y"}]` still yields `system = "X"`,
`messages = [{user,"Y"}]`. -/
theorem system_messages_removed_last_one_wins
    (req : OpenAIChatRequest) (um : String) :
    ((convertOpenAIToAnthropic req um).messages
      = (req.messages.filter (fun m => !(m.role == "system"))).map
          (fun m =>
            Message.mk (if m.role = "assistant" then "assistant" else "user")
              (extractContent m.content))) ∧
    ((convertOpenAIToAnthropic req um).system
      = ((req.messages.filter (fun m => m.role == "system")).getLast?.elim ""
          (fun m => extractContent m.content))) ∧
    (convertOpenAIToAnthropic
        { model := "gpt-x"
          messages := [{ role := "system", content := .str "X" },
                       { role := "user", content := .str "Y" }]
          maxTokens := none, temperature := none, topP := none,
          stream := false } um
      = { model := um, maxTokens := 4096,
          messages := [{ role := "user", content := "Y" }],
          temperature := none, topP := none, system := "X" }) := by
  refine ⟨?_, ?_, rfl⟩
  · show (req.messages.foldl convertMessageStep ([], "")).1 = _
    rw [convertMessageStep_foldl]
    simp
  · show (req.messages.foldl convertMessageStep ([], "")).2 = _
    rw [convertMessageStep_foldl]

/-! ## C7 — outbound request shape per provider flavor -/

/-- C7 counterexample: an outbound attempt on the Anthropic-native
entrypoint whose resolved channel has provider flavor `"openai"` is still a
POST to `{base_url}/v1/messages` carrying `x-api-key` (no `Authorization`
header), contradicting the claim that every non-anthropic-flavored attempt
goes to `/v1/chat/completions` with a Bearer header. -/
theorem nonanthropic_channel_still_gets_messages_endpoint :
    ((buildMessagesRequest (candidateOf (some chanOpenAI) "caller-key" "m1")).url
      = "https://up.example/v1/messages") ∧
    ¬ ((buildMessagesRequest (candidateOf (some chanOpenAI) "caller-key" "m1")).url
      = "https://up.example/v1/chat/completions") ∧
    ((buildMessagesRequest (candidateOf (some chanOpenAI) "caller-key" "m1")).headers
      = [("Content-Type", "application/json"),
         ("x-api-key", "sk-chan"),
         ("anthropic-version", "2023-06-01")]) := by
  refine ⟨rfl, ?_, rfl⟩
  intro h
  rw [show (buildMessagesRequest (candidateOf (some chanOpenAI) "caller-key" "m1")).url
      = "https://up.example/v1/messages" from rfl] at h
  simp at h

/-- C7 (amended): on the OpenAI-compatible entrypoint the outbound attempt
dispatches on the resolved channel's provider flavor exactly as claimed
(`anthropic` → POST `{base}/v1/messages` with `x-api-key` and
`anthropic-version: 2023-06-01`; anything else → POST
`{base}/v1/chat/completions` with `Authorization: Bearer`); on the
Anthropic-native entrypoint, however, every outbound attempt is a POST to
`{base}/v1/messages` with `x-api-key` and `anthropic-version`, regardless
of the flavor. -/
theorem outbound_request_dispatch (ch : Channel) (callerKey um : String) :
    ((buildChatRequest (candidateOf (some ch) callerKey um)).method = "POST") ∧
    ((buildChatRequest (candidateOf (some ch) callerKey um)).url
      = ch.baseURL ++ (if ch.provider = "anthropic" then "/v1/messages"
          else "/v1/chat/completions")) ∧
    (ch.provider = "anthropic" →
      (buildChatRequest (candidateOf (some ch) callerKey um)).headers
        = [("Content-Type", "application/json"),
           ("x-api-key", ch.apiKey),
           ("anthropic-version", "2023-06-01")]) ∧
    (¬ (ch.provider = "anthropic") →
      (buildChatRequest (candidateOf (some ch) callerKey um)).headers
        = [("Content-Type", "application/json"),
           ("Authorization", "Bearer " ++ ch.apiKey)]) ∧
    ((buildMessagesRequest (candidateOf (some ch) callerKey um)).method
      = "POST") ∧
    ((buildMessagesRequest (candidateOf (some ch) callerKey um)).url
      = ch.baseURL ++ "/v1/messages") ∧
    ((buildMessagesRequest (candidateOf (some ch) callerKey um)).headers
      = [("Content-Type", "application/json"),
         ("x-api-key", ch.apiKey),
         ("anthropic-version", "2023-06-01")]) := by
  by_cases hp : ch.provider = "anthropic" <;>
    simp [buildChatRequest, buildMessagesRequest, candidateOf, hp]

/-- C7 witness: the amended dispatch evaluated on a concrete
anthropic-flavored channel and a concrete openai-flavored channel. -/
theorem outbound_request_dispatch_witness :
    ((buildChatRequest (candidateOf (some chanA) "ck" "m")).headers
      = [("Content-Type", "application/json"),
         ("x-api-key", "key-a"),
         ("anthropic-version", "2023-06-01")]) ∧
    ((buildChatRequest (candidateOf (some chanOpenAI) "ck" "m")).headers
      = [("Content-Type", "application/json"),
         ("Authorization", "Bearer " ++ "sk-chan")]) :=
  ⟨(outbound_request_dispatch chanA "ck" "m").2.2.1 rfl,
   (outbound_request_dispatch chanOpenAI "ck" "m").2.2.2.1 (by decide)⟩

/-! ## C8 — fallback candidate on zero matching mappings -/

/-- C8: with zero matching mappings, the non-streaming orchestrator
resolves exactly one fallback candidate: channel id 0 (no channel object),
the default provider endpoint, the caller's own credential, and the raw
display name used verbatim as the upstream model. -/
theorem zero_mappings_single_fallback_candidate
    (parse : String → Option Json)
    (reqModel requestID ip callerKey : String) (fallbackUp : Upstream) :
    (proxyMessageM parse reqModel requestID ip callerKey [] fallbackUp).attempts.map
        (fun a => a.1)
      = [{ channelID := 0, baseURL := "https://api.anthropic.com",
           apiKey := callerKey, provider := "anthropic",
           upstreamModel := reqModel }] := rfl

/-! ## C2 — log records per logical request -/

theorem nsAttempt_log_status (parse : String → Option Json)
    (rm rid ip key : String) (e : CandidateEntry) :
    (nsAttemptOf parse rm rid ip key e).log.status
      = (if (nsAttemptOf parse rm rid ip key e).result.isSome
         then "success" else "error") := by
  obtain ⟨m, ch, up⟩ := e
  cases up with
  | dialError msg => rfl
  | resp status body =>
    by_cases hs : status ≠ 200
    · cases hp : (parse (String.mk body)).bind decodeErrResp with
      | none =>
        simp [nsAttemptOf, proxyToChannelM, hs, hp, logErrorRecord]
      | some p =>
        obtain ⟨t, mm⟩ := p
        simp [nsAttemptOf, proxyToChannelM, hs, hp, logErrorRecord]
    · cases hp : (parse (String.mk body)).bind decodeAnthResp with
      | none =>
        simp [nsAttemptOf, proxyToChannelM, hs, hp, logErrorRecord]
      | some r =>
        simp [nsAttemptOf, proxyToChannelM, hs, hp, logSuccessRecord]

/-- C2 counterexample: two candidates where the first fails pre-commit
(dial failure) and the second succeeds — the run hands **two** records to
the Log Sink (one `error`, one `success`), not exactly one. -/
theorem failover_run_emits_one_log_per_attempt :
    ((proxyMessageM parseFix "disp" "req-1" "1.2.3.4" "caller-key"
        [entryFail, entryOk] (.dialError "unused")).logs.length = 2) ∧
    ((proxyMessageM parseFix "disp" "req-1" "1.2.3.4" "caller-key"
        [entryFail, entryOk] (.dialError "unused")).logs.map
          (fun l => l.status) = ["error", "success"]) ∧
    ¬ ((proxyMessageM parseFix "disp" "req-1" "1.2.3.4" "caller-key"
        [entryFail, entryOk] (.dialError "unused")).logs.length = 1) := by
  refine ⟨rfl, rfl, fun h => ?_⟩
  rw [show (proxyMessageM parseFix "disp" "req-1" "1.2.3.4" "caller-key"
        [entryFail, entryOk] (.dialError "unused")).logs.length = 2 from rfl] at h
  exact absurd h (by decide)

/-- C2 (amended): the orchestrator hands exactly one record to the Log Sink
**per attempted candidate**, not per logical request: in the N-candidate
scenario where the first N−1 attemptable candidates fail pre-commit and the
N-th succeeds, the run emits exactly N records — one `error` record per
failed attempt, in order, and a final record with status `success`. -/
theorem one_log_record_per_attempted_candidate (parse : String → Option Json)
    (rm rid ip key : String) (fallbackUp : Upstream)
    (failEs : List CandidateEntry) (lastE : CandidateEntry)
    (hall : ∀ e ∈ failEs, e.attemptable = true)
    (hfail : ∀ e ∈ failEs, (nsAttemptOf parse rm rid ip key e).result = none)
    (hlast : lastE.attemptable = true)
    (hsucc : (nsAttemptOf parse rm rid ip key lastE).result.isSome = true) :
    ((proxyMessageM parse rm rid ip key (failEs ++ [lastE]) fallbackUp).logs
      = failEs.map (fun e => (nsAttemptOf parse rm rid ip key e).log)
        ++ [(nsAttemptOf parse rm rid ip key lastE).log]) ∧
    ((proxyMessageM parse rm rid ip key (failEs ++ [lastE]) fallbackUp).logs.length
      = failEs.length + 1) ∧
    (∀ e ∈ failEs, (nsAttemptOf parse rm rid ip key e).log.status = "error") ∧
    ((nsAttemptOf parse rm rid ip key lastE).log.status = "success") := by
  have hstatusF : ∀ e ∈ failEs,
      (nsAttemptOf parse rm rid ip key e).log.status = "error" := by
    intro e he
    rw [nsAttempt_log_status, hfail e he]
    rfl
  have hstatusS : (nsAttemptOf parse rm rid ip key lastE).log.status
      = "success" := by
    rw [nsAttempt_log_status, hsucc]
    rfl
  have hne : (failEs ++ [lastE]).isEmpty = false := by
    cases failEs <;> rfl
  have main : ∀ (fs : List CandidateEntry),
      (∀ e ∈ fs, e.attemptable = true) →
      (∀ e ∈ fs, (nsAttemptOf parse rm rid ip key e).result = none) →
      (proxyMessageLoop parse rm rid ip key (fs ++ [lastE])).logs
        = fs.map (fun e => (nsAttemptOf parse rm rid ip key e).log)
          ++ [(nsAttemptOf parse rm rid ip key lastE).log] := by
    intro fs
    induction fs with
    | nil =>
      intro _ _
      obtain ⟨resp, hresp⟩ := Option.isSome_iff_exists.mp hsucc
      simp [proxyMessageLoop, hlast, hresp, NSRun.logs]
    | cons e fs ih =>
      intro hall2 hfail2
      have he : e.attemptable = true := hall2 e (by simp)
      have hf : (nsAttemptOf parse rm rid ip key e).result = none :=
        hfail2 e (by simp)
      simp only [List.cons_append, proxyMessageLoop, he, if_pos, hf,
        NSRun.logs, List.map_cons, List.append_eq]
      rw [show ((proxyMessageLoop parse rm rid ip key (fs ++ [lastE])).attempts.map
          (fun a => a.2.log))
        = (proxyMessageLoop parse rm rid ip key (fs ++ [lastE])).logs from rfl]
      rw [ih (fun x hx => hall2 x (by simp [hx])) (fun x hx => hfail2 x (by simp [hx]))]
  have hrun : (proxyMessageM parse rm rid ip key (failEs ++ [lastE]) fallbackUp).logs
      = (proxyMessageLoop parse rm rid ip key (failEs ++ [lastE])).logs := by
    simp [proxyMessageM, hne]
  refine ⟨?_, ?_, hstatusF, hstatusS⟩
  · rw [hrun]
    exact main failEs hall hfail
  · rw [hrun, main failEs hall hfail]
    simp

/-- C2 witness: the amended per-attempt accounting evaluated on the
concrete two-candidate scenario (one dial failure, then one success). -/
theorem one_log_record_per_attempted_candidate_witness :
    ((proxyMessageM parseFix "disp" "req-1" "1.2.3.4" "caller-key"
        [entryFail, entryOk] (.dialError "unused")).logs.length = 1 + 1) ∧
    ((nsAttemptOf parseFix "disp" "req-1" "1.2.3.4" "caller-key"
        entryOk).log.status = "success") :=
  ⟨(one_log_record_per_attempted_candidate parseFix "disp" "req-1" "1.2.3.4"
      "caller-key" (.dialError "unused") [entryFail] entryOk
      (by decide) (by decide) (by decide) (by decide)).2.1,
   (one_log_record_per_attempted_candidate parseFix "disp" "req-1" "1.2.3.4"
      "caller-key" (.dialError "unused") [entryFail] entryOk
      (by decide) (by decide) (by decide) (by decide)).2.2.2⟩

/-! ## C1 — streaming commit semantics -/

theorem earlierWritesEmpty_cons (out : StreamAttemptOut)
    (outs : List StreamAttemptOut)
    (h1 : out.writes.isEmpty = true) (h2 : earlierWritesEmpty outs = true) :
    earlierWritesEmpty (out :: outs) = true := by
  cases outs with
  | nil => rfl
  | cons o os =>
    simp only [earlierWritesEmpty] at h2 ⊢
    simp [h1, h2]

theorem streamLoop_earlierWritesEmpty
    (attempt : Option Channel → String → Upstream → StreamAttemptOut) :
    ∀ (es : List CandidateEntry) (ws : Bool) (le : Option String),
      earlierWritesEmpty (streamLoop attempt ws le es).1 = true := by
  intro es
  induction es with
  | nil => intro ws le; rfl
  | cons e rest ih =>
    intro ws le
    by_cases ha : e.attemptable = true
    · simp only [streamLoop, ha, if_pos]
      cases herr : (attempt e.channel e.mapping.upstreamModel e.upstream).err with
      | none => rfl
      | some er =>
        cases hw : (ws || !(attempt e.channel e.mapping.upstreamModel
            e.upstream).writes.isEmpty) with
        | true => rfl
        | false =>
          have hw2 : (attempt e.channel e.mapping.upstreamModel
              e.upstream).writes.isEmpty = true := by
            rcases Bool.or_eq_false_iff.mp hw with ⟨-, h2⟩
            simpa using h2
          show earlierWritesEmpty
            (attempt e.channel e.mapping.upstreamModel e.upstream
              :: (streamLoop attempt false (some er) rest).1) = true
          exact earlierWritesEmpty_cons _ _ hw2 (ih false (some er))
    · simp only [streamLoop, ha, Bool.false_eq_true, if_neg]
      exact ih ws le

theorem proxyStreamToChannelM_200 (parse : String → Option Json)
    (rm rid ip key : String) (ch : Option Channel) (um : String)
    (body : List Char) :
    proxyStreamToChannelM parse rm rid ip key ch um (.resp 200 body) true
      = { headersSet := true,
          writes := (anthStreamRun parse (candidateOf ch key um).channelID
            rid rm um ip { inputTokens := 0, outputTokens := 0 }
            (scanLines body)).2.1,
          logs := (anthStreamRun parse (candidateOf ch key um).channelID
            rid rm um ip { inputTokens := 0, outputTokens := 0 }
            (scanLines body)).2.2,
          err := none } := by
  rcases hrun : anthStreamRun parse (candidateOf ch key um).channelID
      rid rm um ip { inputTokens := 0, outputTokens := 0 }
      (scanLines body) with ⟨st, w, lg⟩
  simp [proxyStreamToChannelM, hrun]

theorem proxyStreamToChannelM_commit_props (parse : String → Option Json)
    (rm rid ip key : String) (ch : Option Channel) (um : String)
    (up : Upstream) (fo : Bool) :
    ((proxyStreamToChannelM parse rm rid ip key ch um up fo).headersSet = true →
      up.ok200 = true) ∧
    ((proxyStreamToChannelM parse rm rid ip key ch um up fo).writes.isEmpty = false →
      (proxyStreamToChannelM parse rm rid ip key ch um up fo).headersSet = true) ∧
    (up.ok200 = false →
      (proxyStreamToChannelM parse rm rid ip key ch um up fo).writes = [] ∧
      (proxyStreamToChannelM parse rm rid ip key ch um up fo).headersSet = false ∧
      (proxyStreamToChannelM parse rm rid ip key ch um up fo).err.isSome = true) := by
  cases up with
  | dialError msg =>
    refine ⟨fun h => ?_, fun h => ?_, fun _ => ⟨rfl, rfl, rfl⟩⟩
    · cases h
    · cases h
  | resp status body =>
    by_cases hs : status = 200
    · subst hs
      have hok : Upstream.ok200 (.resp 200 body) = true := rfl
      refine ⟨fun _ => hok, fun _ => ?_, fun h => by rw [hok] at h; cases h⟩
      cases fo with
      | false => rfl
      | true => rw [proxyStreamToChannelM_200]
    · have hok : Upstream.ok200 (.resp status body) = false := by
        simp [Upstream.ok200, hs]
      have hred : proxyStreamToChannelM parse rm rid ip key ch um
          (.resp status body) fo
          = (match (parse (String.mk body)).bind decodeErrResp with
             | some (t, m) =>
               { headersSet := false, writes := [],
                 logs := [logErrorRecord (candidateOf ch key um).channelID
                   rid rm um (some status) t m ip],
                 err := some ("API error: " ++ t ++ " - " ++ m) }
             | none =>
               { headersSet := false, writes := [],
                 logs := [logErrorRecord (candidateOf ch key um).channelID
                   rid rm um (some status) "unknown" (String.mk body) ip],
                 err := some "API error" }) := by
        have hne : status ≠ 200 := hs
        simp only [proxyStreamToChannelM, if_pos hne]
      cases hp : (parse (String.mk body)).bind decodeErrResp with
      | none =>
        rw [hp] at hred
        refine ⟨fun h => ?_, fun h => ?_, fun _ => ?_⟩
        · rw [hred] at h; cases h
        · rw [hred] at h; cases h
        · rw [hred]; exact ⟨rfl, rfl, rfl⟩
      | some p =>
        obtain ⟨t, m⟩ := p
        rw [hp] at hred
        refine ⟨fun h => ?_, fun h => ?_, fun _ => ?_⟩
        · rw [hred] at h; cases h
        · rw [hred] at h; cases h
        · rw [hred]; exact ⟨rfl, rfl, rfl⟩

theorem proxyChatStreamToChannelM_200 (parse : String → Option Json)
    (rm rid ip key : String) (ch : Option Channel) (um : String)
    (body : List Char) :
    proxyChatStreamToChannelM parse rm rid ip key ch um (.resp 200 body) true
      = (let cand := candidateOf ch key um
         let hw := if cand.provider = "anthropic" then
             convertAnthropicStreamToOpenAI parse rm rid (scanLines body)
           else passStreamRun false (scanLines body)
         { headersSet := true, writes := hw.2,
           logs := if hw.1 then
               [logSuccessRecord cand.channelID rid rm um 0 0 ip]
             else [],
           err := none }) := by
  by_cases hp : (candidateOf ch key um).provider = "anthropic"
  · rcases hrun : convertAnthropicStreamToOpenAI parse rm rid (scanLines body)
      with ⟨hd, w⟩
    simp [proxyChatStreamToChannelM, hp, hrun]
  · rcases hrun : passStreamRun false (scanLines body) with ⟨hd, w⟩
    simp [proxyChatStreamToChannelM, hp, hrun]

theorem proxyChatStreamToChannelM_commit_props (parse : String → Option Json)
    (rm rid ip key : String) (ch : Option Channel) (um : String)
    (up : Upstream) (fo : Bool) :
    ((proxyChatStreamToChannelM parse rm rid ip key ch um up fo).headersSet = true →
      up.ok200 = true) ∧
    ((proxyChatStreamToChannelM parse rm rid ip key ch um up fo).writes.isEmpty = false →
      (proxyChatStreamToChannelM parse rm rid ip key ch um up fo).headersSet = true) ∧
    (up.ok200 = false →
      (proxyChatStreamToChannelM parse rm rid ip key ch um up fo).writes = [] ∧
      (proxyChatStreamToChannelM parse rm rid ip key ch um up fo).headersSet = false ∧
      (proxyChatStreamToChannelM parse rm rid ip key ch um up fo).err.isSome = true) := by
  cases up with
  | dialError msg =>
    refine ⟨fun h => ?_, fun h => ?_, fun _ => ⟨rfl, rfl, rfl⟩⟩
    · cases h
    · cases h
  | resp status body =>
    by_cases hs : status = 200
    · subst hs
      have hok : Upstream.ok200 (.resp 200 body) = true := rfl
      refine ⟨fun _ => hok, fun _ => ?_, fun h => by rw [hok] at h; cases h⟩
      cases fo with
      | false => rfl
      | true =>
        rw [proxyChatStreamToChannelM_200]
    · have hok : Upstream.ok200 (.resp status body) = false := by
        simp [Upstream.ok200, hs]
      have hred : proxyChatStreamToChannelM parse rm rid ip key ch um
          (.resp status body) fo
          = { headersSet := false, writes := [],
              logs := [logErrorRecord (candidateOf ch key um).channelID
                rid rm um (some status) "api_error" (String.mk body) ip],
              err := some "API error" } := by
        have hne : status ≠ 200 := hs
        simp only [proxyChatStreamToChannelM, if_pos hne]
      refine ⟨fun h => ?_, fun h => ?_, fun _ => ?_⟩
      · rw [hred] at h; cases h
      · rw [hred] at h; cases h
      · rw [hred]; exact ⟨rfl, rfl, rfl⟩

theorem streamLoop_advances
    (attempt : Option Channel → String → Upstream → StreamAttemptOut)
    (e : CandidateEntry) (rest : List CandidateEntry) (le : Option String)
    (er : String)
    (ha : e.attemptable = true)
    (herr : (attempt e.channel e.mapping.upstreamModel e.upstream).err = some er)
    (hw : (attempt e.channel e.mapping.upstreamModel e.upstream).writes = []) :
    streamLoop attempt false le (e :: rest)
      = ((attempt e.channel e.mapping.upstreamModel e.upstream)
          :: (streamLoop attempt false (some er) rest).1,
         (streamLoop attempt false (some er) rest).2) := by
  simp only [streamLoop, ha, if_pos, herr, hw]
  rfl

/-- C1: streaming commit semantics.  (a) In every streaming run, on either
entrypoint, every attempt before the last wrote nothing — so a second
candidate is only ever tried when no byte of the translated stream has been
flushed to the caller; (b) an attempt sets response headers only when the
upstream HTTP status was confirmed 200, and forwards bytes only after the
headers are set; (c) a pre-commit failure (dial failure or non-2xx status)
writes nothing, sets no headers, returns an error, and the orchestrator
then advances to the next candidate. -/
theorem streaming_commit_once_semantics :
    (∀ (parse : String → Option Json) (rm rid ip key : String)
        (entries : List CandidateEntry) (fb : Upstream) (fo : Bool),
      earlierWritesEmpty (proxyMessageStreamM parse rm rid ip key
          entries fb fo).1 = true ∧
      earlierWritesEmpty (proxyChatStreamM parse rm rid ip key
          entries fb fo).1 = true) ∧
    (∀ (parse : String → Option Json) (rm rid ip key : String)
        (ch : Option Channel) (um : String) (up : Upstream) (fo : Bool),
      (((proxyStreamToChannelM parse rm rid ip key ch um up fo).headersSet = true →
          up.ok200 = true) ∧
        ((proxyStreamToChannelM parse rm rid ip key ch um up fo).writes.isEmpty = false →
          (proxyStreamToChannelM parse rm rid ip key ch um up fo).headersSet = true) ∧
        (up.ok200 = false →
          (proxyStreamToChannelM parse rm rid ip key ch um up fo).writes = [] ∧
          (proxyStreamToChannelM parse rm rid ip key ch um up fo).headersSet = false ∧
          (proxyStreamToChannelM parse rm rid ip key ch um up fo).err.isSome = true)) ∧
      (((proxyChatStreamToChannelM parse rm rid ip key ch um up fo).headersSet = true →
          up.ok200 = true) ∧
        ((proxyChatStreamToChannelM parse rm rid ip key ch um up fo).writes.isEmpty = false →
          (proxyChatStreamToChannelM parse rm rid ip key ch um up fo).headersSet = true) ∧
        (up.ok200 = false →
          (proxyChatStreamToChannelM parse rm rid ip key ch um up fo).writes = [] ∧
          (proxyChatStreamToChannelM parse rm rid ip key ch um up fo).headersSet = false ∧
          (proxyChatStreamToChannelM parse rm rid ip key ch um up fo).err.isSome = true))) ∧
    (∀ (parse : String → Option Json) (rm rid ip key : String)
        (e : CandidateEntry) (rest : List CandidateEntry) (fb : Upstream)
        (fo : Bool) (er : String),
      e.attemptable = true →
      (proxyStreamToChannelM parse rm rid ip key e.channel
        e.mapping.upstreamModel e.upstream fo).err = some er →
      (proxyStreamToChannelM parse rm rid ip key e.channel
        e.mapping.upstreamModel e.upstream fo).writes = [] →
      (proxyMessageStreamM parse rm rid ip key (e :: rest) fb fo).1
        = proxyStreamToChannelM parse rm rid ip key e.channel
            e.mapping.upstreamModel e.upstream fo
          :: (streamLoop (fun c u upx =>
                proxyStreamToChannelM parse rm rid ip key c u upx fo)
              false (some er) rest).1) := by
  refine ⟨?_, ?_, ?_⟩
  · intro parse rm rid ip key entries fb fo
    cases entries with
    | nil => exact ⟨rfl, rfl⟩
    | cons e rest =>
      exact ⟨streamLoop_earlierWritesEmpty _ (e :: rest) false none,
             streamLoop_earlierWritesEmpty _ (e :: rest) false none⟩
  · intro parse rm rid ip key ch um up fo
    exact ⟨proxyStreamToChannelM_commit_props parse rm rid ip key ch um up fo,
           proxyChatStreamToChannelM_commit_props parse rm rid ip key ch um up fo⟩
  · intro parse rm rid ip key e rest fb fo er ha herr hw
    show (streamLoop (fun c u upx =>
        proxyStreamToChannelM parse rm rid ip key c u upx fo)
        false none (e :: rest)).1 = _
    rw [streamLoop_advances (fun c u upx =>
        proxyStreamToChannelM parse rm rid ip key c u upx fo)
      e rest none er ha herr hw]

set_option maxRecDepth 8000 in
/-- C1 witness: on the concrete two-candidate scenario the first (dial
failure) attempt writes nothing and the orchestrator advances to the second
candidate; and a confirmed-200 attempt has its headers set while the
upstream status was indeed 200. -/
theorem streaming_commit_once_semantics_witness :
    ((proxyMessageStreamM parseFix "disp" "req-1" "ip" "ck"
        [entryFail, entrySpare] (.dialError "unused") true).1
      = proxyStreamToChannelM parseFix "disp" "req-1" "ip" "ck"
          (some chanA) "claude-a" (.dialError "connection refused") true
        :: (streamLoop (fun c u upx =>
              proxyStreamToChannelM parseFix "disp" "req-1" "ip" "ck" c u upx true)
            false (some "connection refused") [entrySpare]).1) ∧
    (Upstream.ok200 (.resp 200 c4Body) = true) ∧
    ((proxyStreamToChannelM parseFix "disp" "req-1" "ip" "ck" (some chanA)
        "claude-a" (.dialError "connection refused") true).writes = []) :=
  ⟨(streaming_commit_once_semantics.2.2 parseFix "disp" "req-1" "ip" "ck"
      entryFail [entrySpare] (.dialError "unused") true "connection refused"
      (by decide) rfl rfl),
   (streaming_commit_once_semantics.2.1 parseFix "disp" "req-1" "ip" "ck"
      (some chanA) "claude-a" (.resp 200 c4Body) true).1.1 rfl,
   ((streaming_commit_once_semantics.2.1 parseFix "disp" "req-1" "ip" "ck"
      (some chanA) "claude-a" (.dialError "connection refused") true).1.2.2 rfl).1⟩

/-! ## C3 — post-commit connection drop -/

theorem anthStreamStep_logs (parse : String → Option Json) (cid : Int)
    (rid rm um ip : String) (st : StreamState) (line : List Char) :
    (anthStreamStep parse cid rid rm um ip st line).2.2
      = (if isMessageStopLine parse line
         then [logSuccessRecord cid rid rm um st.inputTokens st.outputTokens ip]
         else []) := by
  unfold anthStreamStep isMessageStopLine
  by_cases h1 : line.isEmpty
  · simp [h1]
  · simp only [h1, Bool.false_eq_true, if_neg]
    by_cases h2 : beginsWith line ("event:".data) = true
    · simp [h2]
    · have h2f : beginsWith line ("event:".data) = false := by
        simpa using h2
      simp only [h2f, Bool.false_eq_true, if_neg]
      by_cases h3 : beginsWith line ("data:".data) = true
      · simp only [h3, if_pos]
        by_cases h4 : (trimSpace (line.drop 5)).isEmpty
        · simp [h4]
        · simp only [h4, Bool.false_eq_true, if_neg]
          cases hp : parse (String.mk (trimSpace (line.drop 5))) with
          | none => simp
          | some ev =>
            by_cases h5 : ev.strField "type" = some "message_stop"
            · simp [h5]
            · simp [h5]
      · have h3f : beginsWith line ("data:".data) = false := by
          simpa using h3
        simp [h3f]

theorem anthStreamRun_no_stop_no_logs (parse : String → Option Json)
    (cid : Int) (rid rm um ip : String) :
    ∀ (lines : List (List Char)) (st : StreamState),
      (∀ l ∈ lines, isMessageStopLine parse l = false) →
      (anthStreamRun parse cid rid rm um ip st lines).2.2 = [] := by
  intro lines
  induction lines with
  | nil => intro st _; rfl
  | cons l ls ih =>
    intro st hall
    rcases hstep : anthStreamStep parse cid rid rm um ip st l with ⟨st', w, lg⟩
    have hlg : lg = [] := by
      have h := anthStreamStep_logs parse cid rid rm um ip st l
      rw [hstep, hall l (by simp)] at h
      simpa using h
    rcases hrun : anthStreamRun parse cid rid rm um ip st' ls with ⟨st2, w2, lg2⟩
    have hlg2 : lg2 = [] := by
      have h := ih st' (fun x hx => hall x (by simp [hx]))
      rw [hrun] at h
      simpa using h
    simp [anthStreamRun, hstep, hrun, hlg, hlg2]

set_option maxRecDepth 8000 in
/-- C3 counterexample: a streaming run whose first candidate commits
(status 200, bytes flushed) and then drops mid-stream attempts no further
candidate — but hands **zero** records to the Log Sink, not one record with
status `error`. -/
theorem post_commit_drop_emits_no_log :
    ((proxyMessageStreamM parseFix "disp" "req-1" "ip" "ck"
        [entryDrop, entrySpare] (.dialError "unused") true).1.length = 1) ∧
    ((proxyMessageStreamM parseFix "disp" "req-1" "ip" "ck"
        [entryDrop, entrySpare] (.dialError "unused") true).1.map
          (fun o => o.writes.isEmpty) = [false]) ∧
    (streamRunLogs (proxyMessageStreamM parseFix "disp" "req-1" "ip" "ck"
        [entryDrop, entrySpare] (.dialError "unused") true).1 = []) ∧
    ¬ ((streamRunLogs (proxyMessageStreamM parseFix "disp" "req-1" "ip" "ck"
        [entryDrop, entrySpare] (.dialError "unused") true).1).length = 1) := by
  refine ⟨rfl, rfl, rfl, fun h => ?_⟩
  rw [show (streamRunLogs (proxyMessageStreamM parseFix "disp" "req-1" "ip" "ck"
      [entryDrop, entrySpare] (.dialError "unused") true).1).length = 0 from rfl] at h
  exact absurd h (by decide)

/-- One streaming candidate that commits and whose upstream then ends. -/
def dropEntry (m : ModelMapping) (ch : Channel) (body : List Char) :
    CandidateEntry :=
  { mapping := m, channel := some ch, upstream := .resp 200 body }

/-- C3 (amended): a failure discovered after commit is terminal — the
orchestrator attempts no further candidate and the partial stream stands —
but the drop is treated as a normal end of stream, not an error: on the
Anthropic-native path no record at all is handed to the Log Sink unless a
`message_stop` event arrived before the drop, and on the chat path any
record emitted has status `success` (one record iff a data frame was
forwarded); no `error` record is ever emitted post-commit. -/
theorem post_commit_drop_terminal_no_error_record
    (parse : String → Option Json) (rm rid ip key : String)
    (m : ModelMapping) (ch : Channel) (body : List Char)
    (rest : List CandidateEntry) (fb : Upstream)
    (hen : m.isEnabled = true) (hact : ch.isActive = true)
    (hnostop : ∀ l ∈ scanLines body, isMessageStopLine parse l = false) :
    ((proxyMessageStreamM parse rm rid ip key (dropEntry m ch body :: rest)
        fb true).1
      = [proxyStreamToChannelM parse rm rid ip key (some ch)
          m.upstreamModel (.resp 200 body) true]) ∧
    ((proxyMessageStreamM parse rm rid ip key (dropEntry m ch body :: rest)
        fb true).2 = none) ∧
    (streamRunLogs (proxyMessageStreamM parse rm rid ip key
        (dropEntry m ch body :: rest) fb true).1 = []) ∧
    ((proxyChatStreamM parse rm rid ip key (dropEntry m ch body :: rest)
        fb true).1
      = [proxyChatStreamToChannelM parse rm rid ip key (some ch)
          m.upstreamModel (.resp 200 body) true]) ∧
    (∀ l ∈ streamRunLogs (proxyChatStreamM parse rm rid ip key
        (dropEntry m ch body :: rest) fb true).1, l.status = "success") := by
  have hatt : (dropEntry m ch body).attemptable = true := by
    simp [dropEntry, CandidateEntry.attemptable, hen, hact]
  have herrM : (proxyStreamToChannelM parse rm rid ip key (some ch)
      m.upstreamModel (.resp 200 body) true).err = none := by
    rw [proxyStreamToChannelM_200]
  have hlogsM : (proxyStreamToChannelM parse rm rid ip key (some ch)
      m.upstreamModel (.resp 200 body) true).logs = [] := by
    rw [proxyStreamToChannelM_200]
    exact anthStreamRun_no_stop_no_logs parse
      (candidateOf (some ch) key m.upstreamModel).channelID rid rm
      m.upstreamModel ip (scanLines body)
      { inputTokens := 0, outputTokens := 0 } hnostop
  have herrC : (proxyChatStreamToChannelM parse rm rid ip key (some ch)
      m.upstreamModel (.resp 200 body) true).err = none := by
    rw [proxyChatStreamToChannelM_200]
  have hrunM : proxyMessageStreamM parse rm rid ip key
      (dropEntry m ch body :: rest) fb true
      = ([proxyStreamToChannelM parse rm rid ip key (some ch)
          m.upstreamModel (.resp 200 body) true], none) := by
    show streamLoop _ false none _ = _
    simp only [streamLoop, hatt, if_pos]
    rw [show (dropEntry m ch body).channel = some ch from rfl,
        show (dropEntry m ch body).mapping.upstreamModel = m.upstreamModel from rfl,
        show (dropEntry m ch body).upstream = .resp 200 body from rfl]
    simp only [herrM]
  have hrunC : proxyChatStreamM parse rm rid ip key
      (dropEntry m ch body :: rest) fb true
      = ([proxyChatStreamToChannelM parse rm rid ip key (some ch)
          m.upstreamModel (.resp 200 body) true], none) := by
    show streamLoop _ false none _ = _
    simp only [streamLoop, hatt, if_pos]
    rw [show (dropEntry m ch body).channel = some ch from rfl,
        show (dropEntry m ch body).mapping.upstreamModel = m.upstreamModel from rfl,
        show (dropEntry m ch body).upstream = .resp 200 body from rfl]
    simp only [herrC]
  refine ⟨?_, ?_, ?_, ?_, ?_⟩
  · rw [hrunM]
  · rw [hrunM]
  · rw [hrunM]
    simp [streamRunLogs, hlogsM]
  · rw [hrunC]
  · rw [hrunC]
    intro l hl
    simp only [streamRunLogs, List.map_cons, List.map_nil, List.flatten] at hl
    rw [proxyChatStreamToChannelM_200] at hl
    by_cases hd : (if (candidateOf (some ch) key m.upstreamModel).provider
        = "anthropic" then
          convertAnthropicStreamToOpenAI parse rm rid (scanLines body)
        else passStreamRun false (scanLines body)).1
    · simp [hd] at hl
      rw [hl]
      rfl
    · simp [hd] at hl

set_option maxRecDepth 8000 in
/-- C3 witness: the amended post-commit semantics evaluated on the concrete
dropped stream (commit, two data frames, drop): the spare second candidate
is not attempted and the Log Sink receives nothing. -/
theorem post_commit_drop_terminal_no_error_record_witness :
    ((proxyMessageStreamM parseFix "disp" "req-1" "ip" "ck"
        (dropEntry mapA chanA dropBody :: [entrySpare])
        (.dialError "unused") true).1
      = [proxyStreamToChannelM parseFix "disp" "req-1" "ip" "ck" (some chanA)
          "claude-a" (.resp 200 dropBody) true]) ∧
    (streamRunLogs (proxyMessageStreamM parseFix "disp" "req-1" "ip" "ck"
        (dropEntry mapA chanA dropBody :: [entrySpare])
        (.dialError "unused") true).1 = []) :=
  ⟨(post_commit_drop_terminal_no_error_record parseFix "disp" "req-1" "ip"
      "ck" mapA chanA dropBody [entrySpare] (.dialError "unused")
      rfl rfl (by decide)).1,
   (post_commit_drop_terminal_no_error_record parseFix "disp" "req-1" "ip"
      "ck" mapA chanA dropBody [entrySpare] (.dialError "unused")
      rfl rfl (by decide)).2.2.1⟩
